import Mathlib

/-!
Verification of `configure-serial.py` (repository g3gg0/esp32_flasher).

The script is a single linear procedure `configure_serial_raw(port_path, baudrate)`:
open the device, read its termios attributes, overwrite them with a fixed raw
profile, apply them, print confirmation lines, close the handle and exit 0;
any exception in that sequence is caught, printed as `Error: <e>` on stderr,
and the process exits 1.  The `__main__` block parses `sys.argv` (with the
`int(...)` conversion outside the exception handler) and calls the procedure.

We embed the script shallowly: the host `termios` module is a record of the
constants the script reads, the three fallible system calls (`os.open`,
`tcgetattr`, `tcsetattr`) are fields of a `Device` record holding their
outcomes for this run, and the procedure is a pure function from those to a
`RunResult` describing exit code, the two output streams, the attribute
record passed to `tcsetattr` (when reached), and the open/close events on the
device handle.
-/

/-- A termios attribute snapshot, mirroring the Python list
`[iflag, oflag, cflag, lflag, ispeed, ospeed, cc]` of `tcgetattr`. -/
structure TermAttrs where
  iflag : Nat
  oflag : Nat
  cflag : Nat
  lflag : Nat
  ispeed : Nat
  ospeed : Nat
  cc : List Nat
deriving DecidableEq, Repr

/-- The constants the script reads from the host `termios` module.
`getBConst r` models `hasattr(termios, f'B{r}')` / `getattr(termios, f'B{r}')`:
`some c` when the host defines the symbolic constant `B{r}` with value `c`.
`PARENB` and `CSTOPB` (parity enable, two stop bits) are not used by the
script; they are carried so that claims about their bits can be stated. -/
structure TermiosHost where
  getBConst : Int → Option Nat
  CS8 : Nat
  CREAD : Nat
  CLOCAL : Nat
  PARENB : Nat
  CSTOPB : Nat
  VMIN : Nat
  VTIME : Nat

instance {ε α : Type} [DecidableEq ε] [DecidableEq α] : DecidableEq (Except ε α) :=
  fun x y =>
    match x, y with
    | Except.error a, Except.error b => decidable_of_iff (a = b) (by simp)
    | Except.error _, Except.ok _ => isFalse (by simp)
    | Except.ok _, Except.error _ => isFalse (by simp)
    | Except.ok a, Except.ok b => decidable_of_iff (a = b) (by simp)

/-- Outcomes of the three fallible system calls for one run on one device:
`os.open` (line 14), `termios.tcgetattr` (line 17), `termios.tcsetattr`
(line 51).  An `Except.error e` models the call raising an exception whose
string form is `e`. -/
structure Device where
  openResult : Except String Nat
  getattrResult : Except String TermAttrs
  setattrResult : Except String Unit
deriving DecidableEq

/-- Open/close events on the device handle, to track handle release. -/
inductive Event where
  | opened (fd : Nat)
  | closed (fd : Nat)
deriving DecidableEq, Repr

/-- Observable outcome of one run of `configure_serial_raw`:
process exit code, stdout lines, stderr lines, the attribute record that was
successfully applied by `tcsetattr` (`none` if never applied), and the handle
events that occurred. -/
structure RunResult where
  exitCode : Nat
  stdout : List String
  stderr : List String
  applied : Option TermAttrs
  events : List Event
deriving DecidableEq

/-- The `except Exception` branch (lines 61-63): print `Error: <e>` to stderr
and exit 1, keeping whatever stdout lines and handle events already occurred. -/
def mkErr (events : List Event) (out : List String) (e : String) : RunResult :=
  { exitCode := 1, stdout := out, stderr := ["Error: " ++ e], applied := none
  , events := events }

/-- Lines 20-24: build the dict of supported baud rates by probing which of
`B115200, B230400, B460800, B921600` the host defines. -/
def build_baudrates (h : TermiosHost) : List (Int × Nat) :=
  [(115200 : Int), 230400, 460800, 921600].filterMap fun r =>
    (h.getBConst r).map fun c => (r, c)

/-- Dict key lookup on the association list built above. -/
def lookupRate (l : List (Int × Nat)) (r : Int) : Option Nat :=
  (l.find? fun p => p.1 == r).map Prod.snd

/-- Line 26 condition: `baudrate not in baudrates`. -/
def warn_needed (h : TermiosHost) (r : Int) : Bool :=
  (lookupRate (build_baudrates h) r).isNone

/-- Line 27: the warning printed when the requested rate is unsupported. -/
def warn_out (h : TermiosHost) (r : Int) : List String :=
  if warn_needed h r then
    ["Warning: Baudrate " ++ toString r ++ " not available, using 115200"]
  else []

/-- Line 28: the effective rate after substitution (`baudrate = 115200`). -/
def effective_baud (h : TermiosHost) (r : Int) : Int :=
  if warn_needed h r then 115200 else r

/-- Line 29: `baudrates.get(baudrate, termios.B115200)`.  The fallback reads
the attribute `termios.B115200` directly; if the host does not define it,
an `AttributeError` is raised (and caught by the outer handler). -/
def resolve_baud (h : TermiosHost) (r : Int) : Except String Nat :=
  match lookupRate (build_baudrates h) r with
  | some c => Except.ok c
  | none =>
    match h.getBConst 115200 with
    | some c => Except.ok c
    | none => Except.error "module termios has no attribute B115200"

/-- Python list item assignment `cc[i] = v`: raises `IndexError` when `i` is
out of range. -/
def ccSet (cc : List Nat) (i : Nat) (v : Nat) : Except String (List Nat) :=
  if i < cc.length then Except.ok (cc.set i v)
  else Except.error "list assignment index out of range"

/-- Lines 32-48: overwrite the snapshot with the raw profile: `iflag = 0`,
`oflag = 0`, `cflag = CS8 | CREAD | CLOCAL`, `lflag = 0`, both speeds set to
the resolved constant `baud`, and `cc[VMIN] = 0`, `cc[VTIME] = 0` mutating
the table read from the device. -/
def apply_raw_profile (h : TermiosHost) (baud : Nat) (a : TermAttrs) :
    Except String TermAttrs :=
  match ccSet a.cc h.VMIN 0 with
  | Except.error e => Except.error e
  | Except.ok cc1 =>
    match ccSet cc1 h.VTIME 0 with
    | Except.error e => Except.error e
    | Except.ok cc2 =>
      Except.ok
        { iflag := 0, oflag := 0
        , cflag := h.CS8 ||| h.CREAD ||| h.CLOCAL
        , lflag := 0, ispeed := baud, ospeed := baud, cc := cc2 }

/-- The whole procedure `configure_serial_raw` (lines 11-63), as a function of
the host constants and the outcomes of this run's system calls. -/
def configure_serial_raw (h : TermiosHost) (dev : Device) (port_path : String)
    (baudrate : Int) : RunResult :=
  match dev.openResult with
  | Except.error e => mkErr [] [] e
  | Except.ok fd =>
    match dev.getattrResult with
    | Except.error e => mkErr [Event.opened fd] [] e
    | Except.ok attrs =>
      match resolve_baud h (effective_baud h baudrate) with
      | Except.error e => mkErr [Event.opened fd] (warn_out h baudrate) e
      | Except.ok baud =>
        match apply_raw_profile h baud attrs with
        | Except.error e => mkErr [Event.opened fd] (warn_out h baudrate) e
        | Except.ok newAttrs =>
          match dev.setattrResult with
          | Except.error e => mkErr [Event.opened fd] (warn_out h baudrate) e
          | Except.ok _ =>
            { exitCode := 0
            , stdout := warn_out h baudrate ++
                [ "[configure-serial] Configured " ++ port_path ++
                    " for raw binary mode"
                , "[configure-serial] Baud rate: " ++
                    toString (effective_baud h baudrate)
                , "[configure-serial] iflag=0, oflag=0, lflag=0 (all processing disabled)"
                , "[configure-serial] VMIN=0, VTIME=0 (non-blocking)" ]
            , stderr := []
            , applied := some newAttrs
            , events := [Event.opened fd, Event.closed fd] }

/-- `True` when the event list contains no close event. -/
def noCloseEvent (l : List Event) : Bool :=
  l.all fun ev => match ev with
    | Event.closed _ => false
    | _ => true

/-- The code points CPython strips around the argument of `int(s)`: every
character for which `Py_UNICODE_ISSPACE` holds (ASCII whitespace, the
0x1C-0x1F separators, NEL, NBSP, and the Unicode space/line/paragraph
separators). -/
def pySpaceChars : List Nat :=
  [0x09, 0x0A, 0x0B, 0x0C, 0x0D, 0x1C, 0x1D, 0x1E, 0x1F, 0x20,
   0x85, 0xA0, 0x1680,
   0x2000, 0x2001, 0x2002, 0x2003, 0x2004, 0x2005, 0x2006, 0x2007,
   0x2008, 0x2009, 0x200A, 0x2028, 0x2029, 0x202F, 0x205F, 0x3000]

/-- Whether `int()` strips this character at either end of its argument. -/
def isPySpace (c : Char) : Bool := pySpaceChars.contains c.toNat

/-- Strip the characters `int()` ignores from both ends. -/
def stripPySpace (l : List Char) : List Char :=
  ((l.dropWhile isPySpace).reverse.dropWhile isPySpace).reverse

/-- The zero code point of every decimal-digit run (general category Nd) of
Unicode 15.0, the table CPython 3.12 ships: each run is ten consecutive code
points valued 0-9.  This is what makes `int()` accept e.g. Arabic-Indic or
fullwidth digits. -/
def ndZeroStarts : List Nat :=
  [0x0030, 0x0660, 0x06F0, 0x07C0, 0x0966, 0x09E6, 0x0A66, 0x0AE6,
   0x0B66, 0x0BE6, 0x0C66, 0x0CE6, 0x0D66, 0x0DE6, 0x0E50, 0x0ED0,
   0x0F20, 0x1040, 0x1090, 0x17E0, 0x1810, 0x1946, 0x19D0, 0x1A80,
   0x1A90, 0x1B50, 0x1BB0, 0x1C40, 0x1C50, 0xA620, 0xA8D0, 0xA900,
   0xA9D0, 0xA9F0, 0xAA50, 0xABF0, 0xFF10,
   0x104A0, 0x10D30, 0x11066, 0x110F0, 0x11136, 0x111D0, 0x112F0,
   0x11450, 0x114D0, 0x11650, 0x116C0, 0x11730, 0x118E0, 0x11950,
   0x11C50, 0x11D50, 0x11DA0, 0x11F50, 0x16A60, 0x16AC0, 0x16B50,
   0x1D7CE, 0x1D7D8, 0x1D7E2, 0x1D7EC, 0x1D7F6, 0x1E140, 0x1E2F0,
   0x1E4F0, 0x1E950, 0x1FBF0]

/-- Value of a Unicode decimal digit (category Nd), as `int()` accepts it. -/
def digitVal (c : Char) : Option Nat :=
  (ndZeroStarts.find? fun z => decide (z ≤ c.toNat ∧ c.toNat < z + 10)).map
    fun z => c.toNat - z

/-- Continue Python's `digitpart` grammar after a first digit: further
digits, with single underscores allowed only between two digits. -/
def parseDigitsTail : Nat → List Char → Option Nat
  | acc, [] => some acc
  | acc, '_' :: c :: rest =>
    match digitVal c with
    | some d => parseDigitsTail (acc * 10 + d) rest
    | none => none
  | acc, c :: rest =>
    match digitVal c with
    | some d => parseDigitsTail (acc * 10 + d) rest
    | none => none

/-- Python's `digitpart`: one or more decimal digits with single underscore
separators; it may not start or end with an underscore. -/
def parseDigitList : List Char → Option Nat
  | [] => none
  | c :: rest =>
    match digitVal c with
    | some d => parseDigitsTail d rest
    | none => none

/-- Model of CPython `int(s)` with base 10 on a command-line string: strip
surrounding whitespace, accept an optional ASCII `+` or `-` sign, then one
or more Unicode decimal digits with underscore grouping; `none` models
`int` raising `ValueError`. -/
def pyInt (s : String) : Option Int :=
  match stripPySpace s.data with
  | '+' :: rest => (parseDigitList rest).map fun n => (n : Int)
  | '-' :: rest => (parseDigitList rest).map fun n => -(n : Int)
  | l => (parseDigitList l).map fun n => (n : Int)

/-- Result of the `__main__` block (lines 65-68): either the `int(sys.argv[2])`
conversion raised an uncaught `ValueError` (no handler encloses line 67), or
the procedure ran and produced a `RunResult`. -/
inductive MainResult where
  | uncaught (msg : String)
  | ran (r : RunResult)
deriving DecidableEq

/-- The `__main__` block: `sys.argv[1]` defaults to `/dev/ttyS0`,
`int(sys.argv[2])` defaults to 115200; `pyInt` models the `int()`
conversion of a decimal integer string, performed outside any handler. -/
def main_entry (h : TermiosHost) (dev : Device) (argv : List String) :
    MainResult :=
  let port := match argv.get? 1 with
    | some p => p
    | none => "/dev/ttyS0"
  match argv.get? 2 with
  | none => MainResult.ran (configure_serial_raw h dev port 115200)
  | some s =>
    match pyInt s with
    | none =>
      MainResult.uncaught ("invalid literal for int() with base 10: " ++ s)
    | some b => MainResult.ran (configure_serial_raw h dev port b)

/-- `True` exactly when the `__main__` block reached the procedure (so any
diagnostic, including the `Error:` line, could only come from a `ran` run). -/
def isRan : MainResult → Bool
  | MainResult.ran _ => true
  | _ => false

/-- A host with the Linux termios constant values: `CS8 = 0o60`,
`CREAD = 0o200`, `CLOCAL = 0o4000`, `PARENB = 0o400`, `CSTOPB = 0o100`,
`VMIN = 6`, `VTIME = 5`, and all four probed baud constants defined
(`B115200 = 0o10002` .. `B921600 = 0o10007`). -/
def linuxHost : TermiosHost :=
  { getBConst := fun r =>
      if r = 115200 then some 4098
      else if r = 230400 then some 4099
      else if r = 460800 then some 4100
      else if r = 921600 then some 4103
      else none
  , CS8 := 48, CREAD := 128, CLOCAL := 2048
  , PARENB := 256, CSTOPB := 64
  , VMIN := 6, VTIME := 5 }

/-- A typical canonical-mode snapshot as returned by `tcgetattr` on Linux,
with a 32-entry control-character table holding some nonzero entries (VMIN
and VTIME start at 1). -/
def initialAttrs : TermAttrs :=
  { iflag := 1280, oflag := 5, cflag := 191, lflag := 35387
  , ispeed := 13, ospeed := 13
  , cc := [3, 28, 127, 21, 4, 1, 1, 0, 17, 19, 26, 0, 18, 15, 23, 22,
           0, 0, 0, 0, 0, 0, 0, 0, 0, 0, 0, 0, 0, 0, 0, 0] }

/-- The same snapshot with a different interrupt character (`cc` index 0),
to exhibit dependence of the result on the pre-existing attributes. -/
def altAttrs : TermAttrs :=
  { initialAttrs with
      cc := [255, 28, 127, 21, 4, 1, 1, 0, 17, 19, 26, 0, 18, 15, 23, 22,
             0, 0, 0, 0, 0, 0, 0, 0, 0, 0, 0, 0, 0, 0, 0, 0] }

/-- A device whose three system calls all succeed. -/
def okDevice : Device :=
  { openResult := Except.ok 3
  , getattrResult := Except.ok initialAttrs
  , setattrResult := Except.ok () }

/-- A device identical to `okDevice` except for the pre-existing snapshot. -/
def altDevice : Device :=
  { okDevice with getattrResult := Except.ok altAttrs }

/-- A device whose open fails, as for a nonexistent path. -/
def noDevice : Device :=
  { openResult :=
      Except.error "[Errno 2] No such file or directory: /dev/nonexistent"
  , getattrResult := Except.error "[Errno 9] Bad file descriptor"
  , setattrResult := Except.error "[Errno 9] Bad file descriptor" }

/-- A device that opens (handle 3) but whose `tcgetattr` raises. -/
def getattrFailDevice : Device :=
  { openResult := Except.ok 3
  , getattrResult := Except.error "[Errno 5] Input/output error"
  , setattrResult := Except.ok () }

/-! ## Helper lemmas -/

/-- For a rate in the probed list, the built dict maps it to exactly the
host's constant for that rate (keys in the dict are unique). -/
theorem lookupRate_build (h : TermiosHost) (r : Int)
    (hr : r ∈ [(115200 : Int), 230400, 460800, 921600]) :
    lookupRate (build_baudrates h) r = h.getBConst r := by
  fin_cases hr <;>
  · rcases hc1 : h.getBConst 115200 with _ | c1 <;>
    rcases hc2 : h.getBConst 230400 with _ | c2 <;>
    rcases hc3 : h.getBConst 460800 with _ | c3 <;>
    rcases hc4 : h.getBConst 921600 with _ | c4 <;>
    simp [lookupRate, build_baudrates, hc1, hc2, hc3, hc4]

/-- Characterization of a successful raw-profile overwrite: both indices were
in range and the result is the fixed record with the mutated table. -/
theorem apply_raw_profile_ok (h : TermiosHost) (baud : Nat) (a A : TermAttrs)
    (hA : apply_raw_profile h baud a = Except.ok A) :
    h.VMIN < a.cc.length ∧ h.VTIME < a.cc.length ∧
      A = { iflag := 0, oflag := 0, cflag := h.CS8 ||| h.CREAD ||| h.CLOCAL
          , lflag := 0, ispeed := baud, ospeed := baud
          , cc := (a.cc.set h.VMIN 0).set h.VTIME 0 } := by
  unfold apply_raw_profile ccSet at hA
  by_cases h1 : h.VMIN < a.cc.length
  · simp only [h1, if_true, List.length_set] at hA
    by_cases h2 : h.VTIME < a.cc.length
    · simp only [h2, if_true] at hA
      cases hA
      exact ⟨h1, h2, rfl⟩
    · simp [h2] at hA
  · simp [h1] at hA

/-- Forward computation of a successful raw-profile overwrite. -/
theorem apply_raw_profile_eq (h : TermiosHost) (baud : Nat) (a : TermAttrs)
    (h1 : h.VMIN < a.cc.length) (h2 : h.VTIME < a.cc.length) :
    apply_raw_profile h baud a =
      Except.ok
        { iflag := 0, oflag := 0, cflag := h.CS8 ||| h.CREAD ||| h.CLOCAL
        , lflag := 0, ispeed := baud, ospeed := baud
        , cc := (a.cc.set h.VMIN 0).set h.VTIME 0 } := by
  unfold apply_raw_profile ccSet
  simp [h1, h2]

/-- Forward computation of a fully successful run. -/
theorem configure_eq_ok (h : TermiosHost) (dev : Device) (p : String) (b : Int)
    (fd : Nat) (a : TermAttrs) (baud : Nat) (A : TermAttrs)
    (ho : dev.openResult = Except.ok fd)
    (ha : dev.getattrResult = Except.ok a)
    (hb : resolve_baud h (effective_baud h b) = Except.ok baud)
    (hA : apply_raw_profile h baud a = Except.ok A)
    (hst : dev.setattrResult = Except.ok ()) :
    configure_serial_raw h dev p b =
      { exitCode := 0
      , stdout := warn_out h b ++
          [ "[configure-serial] Configured " ++ p ++ " for raw binary mode"
          , "[configure-serial] Baud rate: " ++ toString (effective_baud h b)
          , "[configure-serial] iflag=0, oflag=0, lflag=0 (all processing disabled)"
          , "[configure-serial] VMIN=0, VTIME=0 (non-blocking)" ]
      , stderr := []
      , applied := some A
      , events := [Event.opened fd, Event.closed fd] } := by
  unfold configure_serial_raw
  simp only [ho, ha, hb, hA, hst]

/-- Inversion of a successful run: exit code 0 forces every step to have
succeeded. -/
theorem configure_success_inv (h : TermiosHost) (dev : Device) (p : String)
    (b : Int) (hs : (configure_serial_raw h dev p b).exitCode = 0) :
    ∃ fd a baud A,
      dev.openResult = Except.ok fd ∧
      dev.getattrResult = Except.ok a ∧
      resolve_baud h (effective_baud h b) = Except.ok baud ∧
      apply_raw_profile h baud a = Except.ok A ∧
      dev.setattrResult = Except.ok () := by
  unfold configure_serial_raw at hs
  rcases ho : dev.openResult with e | fd <;> simp only [ho] at hs
  · simp [mkErr] at hs
  rcases ha : dev.getattrResult with e | a <;> simp only [ha] at hs
  · simp [mkErr] at hs
  rcases hb : resolve_baud h (effective_baud h b) with e | baud <;>
    simp only [hb] at hs
  · simp [mkErr] at hs
  rcases hA : apply_raw_profile h baud a with e | A <;> simp only [hA] at hs
  · simp [mkErr] at hs
  rcases hst : dev.setattrResult with e | u <;> simp only [hst] at hs
  · simp [mkErr] at hs
  cases u
  exact ⟨fd, a, baud, A, rfl, rfl, rfl, hA, rfl⟩

/-- After setting index `m` to 0 and then index `t` to 0, index `m` holds 0. -/
theorem double_set_get_fst (x : List Nat) (m t : Nat) (hm : m < x.length) :
    ((x.set m 0).set t 0)[m]? = some 0 := by
  by_cases he : t = m
  · subst he
    rw [List.set_set]
    exact List.getElem?_set_self hm
  · rw [List.getElem?_set_ne he]
    exact List.getElem?_set_self hm

/-- After setting index `m` to 0 and then index `t` to 0, index `t` holds 0. -/
theorem double_set_get_snd (x : List Nat) (m t : Nat) (ht : t < x.length) :
    ((x.set m 0).set t 0)[t]? = some 0 :=
  List.getElem?_set_self (by simpa using ht)

/-! ## Claims -/

/-- C1: every successful run applies an attribute record with input, output
and local flags all 0 and control flags exactly `CS8 ||| CREAD ||| CLOCAL`;
whenever the host's parity-enable (`PARENB`) and stop-bit-extension
(`CSTOPB`) constants share no bits with that combination (as on real hosts),
no parity or stop-bit-extension bit is set in the applied control flags. -/
theorem c1_flags_raw_profile (h : TermiosHost) (dev : Device) (p : String)
    (b : Int)
    (hpar : (h.CS8 ||| h.CREAD ||| h.CLOCAL) &&& h.PARENB = 0)
    (hstop : (h.CS8 ||| h.CREAD ||| h.CLOCAL) &&& h.CSTOPB = 0)
    (hs : (configure_serial_raw h dev p b).exitCode = 0) :
    ∃ A, (configure_serial_raw h dev p b).applied = some A ∧
      A.iflag = 0 ∧ A.oflag = 0 ∧ A.lflag = 0 ∧
      A.cflag = h.CS8 ||| h.CREAD ||| h.CLOCAL ∧
      A.cflag &&& h.PARENB = 0 ∧ A.cflag &&& h.CSTOPB = 0 := by
  obtain ⟨fd, a, baud, A, ho, ha, hb, hA, hst⟩ := configure_success_inv h dev p b hs
  have hrun := configure_eq_ok h dev p b fd a baud A ho ha hb hA hst
  obtain ⟨h1, h2, hAeq⟩ := apply_raw_profile_ok h baud a A hA
  subst hAeq
  exact ⟨_, by rw [hrun], rfl, rfl, rfl, rfl, hpar, hstop⟩

/-- Witness for C1 at the Linux constants on an all-successful device. -/
theorem c1_flags_raw_profile_witness :
    ∃ A, (configure_serial_raw linuxHost okDevice "/dev/ttyUSB0" 115200).applied
        = some A ∧
      A.iflag = 0 ∧ A.oflag = 0 ∧ A.lflag = 0 ∧
      A.cflag = linuxHost.CS8 ||| linuxHost.CREAD ||| linuxHost.CLOCAL ∧
      A.cflag &&& linuxHost.PARENB = 0 ∧ A.cflag &&& linuxHost.CSTOPB = 0 :=
  c1_flags_raw_profile linuxHost okDevice "/dev/ttyUSB0" 115200
    (by decide) (by decide) (by decide)

/-- C2: every successful run applies an attribute record whose
control-character table holds 0 at index `VMIN` and 0 at index `VTIME`. -/
theorem c2_vmin_vtime_zero (h : TermiosHost) (dev : Device) (p : String)
    (b : Int) (hs : (configure_serial_raw h dev p b).exitCode = 0) :
    ∃ A, (configure_serial_raw h dev p b).applied = some A ∧
      A.cc[h.VMIN]? = some 0 ∧ A.cc[h.VTIME]? = some 0 := by
  obtain ⟨fd, a, baud, A, ho, ha, hb, hA, hst⟩ := configure_success_inv h dev p b hs
  have hrun := configure_eq_ok h dev p b fd a baud A ho ha hb hA hst
  obtain ⟨h1, h2, hAeq⟩ := apply_raw_profile_ok h baud a A hA
  subst hAeq
  exact ⟨_, by rw [hrun],
    double_set_get_fst a.cc h.VMIN h.VTIME h1,
    double_set_get_snd a.cc h.VMIN h.VTIME h2⟩

/-- Witness for C2 at the Linux constants on an all-successful device. -/
theorem c2_vmin_vtime_zero_witness :
    ∃ A, (configure_serial_raw linuxHost okDevice "/dev/ttyS0" 230400).applied
        = some A ∧
      A.cc[linuxHost.VMIN]? = some 0 ∧ A.cc[linuxHost.VTIME]? = some 0 :=
  c2_vmin_vtime_zero linuxHost okDevice "/dev/ttyS0" 230400 (by decide)

/-- C3: for a requested rate from the allow-list whose symbolic constant the
host defines, every successful run applies attributes whose input and output
speed fields both equal exactly that constant. -/
theorem c3_speed_matches (h : TermiosHost) (dev : Device) (p : String)
    (b : Int) (c : Nat)
    (hmem : b ∈ [(115200 : Int), 230400, 460800, 921600])
    (hc : h.getBConst b = some c)
    (hs : (configure_serial_raw h dev p b).exitCode = 0) :
    ∃ A, (configure_serial_raw h dev p b).applied = some A ∧
      A.ispeed = c ∧ A.ospeed = c := by
  obtain ⟨fd, a, baud, A, ho, ha, hb, hA, hst⟩ := configure_success_inv h dev p b hs
  obtain ⟨h1, h2, hAeq⟩ := apply_raw_profile_ok h baud a A hA
  have hlk : lookupRate (build_baudrates h) b = some c := by
    rw [lookupRate_build h b hmem]; exact hc
  have hwn : warn_needed h b = false := by simp [warn_needed, hlk]
  have heff : effective_baud h b = b := by simp [effective_baud, hwn]
  have hres : resolve_baud h (effective_baud h b) = Except.ok c := by
    rw [heff]; unfold resolve_baud; rw [hlk]
  have hb2 := hb
  rw [hres] at hb
  injection hb with hbc
  have hrun := configure_eq_ok h dev p b fd a baud A ho ha hb2 hA hst
  subst hAeq
  exact ⟨_, by rw [hrun], hbc.symm, hbc.symm⟩

/-- Witness for C3: requesting 460800 on Linux yields speed constant 4100. -/
theorem c3_speed_matches_witness :
    ∃ A, (configure_serial_raw linuxHost okDevice "/dev/ttyUSB1" 460800).applied
        = some A ∧ A.ispeed = 4100 ∧ A.ospeed = 4100 :=
  c3_speed_matches linuxHost okDevice "/dev/ttyUSB1" 460800 4100
    (by decide) (by decide) (by decide)

/-- C4: when the requested rate is not in the built allow-list (and the host
defines `B115200`, as every host this script targets does), a run whose
system calls succeed still exits 0, prints the warning line to stdout,
reports 115200 as the effective rate, and applies the `B115200` constant as
both speeds. -/
theorem c4_unsupported_rate_degrades (h : TermiosHost) (dev : Device)
    (p : String) (b : Int) (fd : Nat) (a : TermAttrs) (c : Nat)
    (hun : lookupRate (build_baudrates h) b = none)
    (h115 : h.getBConst 115200 = some c)
    (ho : dev.openResult = Except.ok fd)
    (ha : dev.getattrResult = Except.ok a)
    (hst : dev.setattrResult = Except.ok ())
    (h1 : h.VMIN < a.cc.length) (h2 : h.VTIME < a.cc.length) :
    (configure_serial_raw h dev p b).exitCode = 0 ∧
    ("Warning: Baudrate " ++ toString b ++ " not available, using 115200")
      ∈ (configure_serial_raw h dev p b).stdout ∧
    ("[configure-serial] Baud rate: " ++ toString (115200 : Int))
      ∈ (configure_serial_raw h dev p b).stdout ∧
    ∃ A, (configure_serial_raw h dev p b).applied = some A ∧
      A.ispeed = c ∧ A.ospeed = c := by
  have hwn : warn_needed h b = true := by simp [warn_needed, hun]
  have heff : effective_baud h b = 115200 := by simp [effective_baud, hwn]
  have hlk115 : lookupRate (build_baudrates h) 115200 = some c := by
    rw [lookupRate_build h 115200 (by decide)]; exact h115
  have hres : resolve_baud h (effective_baud h b) = Except.ok c := by
    rw [heff]; unfold resolve_baud; rw [hlk115]
  have hA := apply_raw_profile_eq h c a h1 h2
  have hrun := configure_eq_ok h dev p b fd a c _ ho ha hres hA hst
  rw [hrun]
  refine ⟨rfl, ?_, ?_, _, rfl, rfl, rfl⟩
  · simp [warn_out, hwn]
  · simp [warn_out, hwn, heff]

/-- Witness for C4: requesting 57600 on Linux degrades to 115200 (constant
4098) and still succeeds. -/
theorem c4_unsupported_rate_degrades_witness :
    (configure_serial_raw linuxHost okDevice "/dev/ttyUSB0" 57600).exitCode = 0 ∧
    ("Warning: Baudrate " ++ toString (57600 : Int) ++
        " not available, using 115200")
      ∈ (configure_serial_raw linuxHost okDevice "/dev/ttyUSB0" 57600).stdout ∧
    ("[configure-serial] Baud rate: " ++ toString (115200 : Int))
      ∈ (configure_serial_raw linuxHost okDevice "/dev/ttyUSB0" 57600).stdout ∧
    ∃ A, (configure_serial_raw linuxHost okDevice "/dev/ttyUSB0" 57600).applied
        = some A ∧ A.ispeed = 4098 ∧ A.ospeed = 4098 :=
  c4_unsupported_rate_degrades linuxHost okDevice "/dev/ttyUSB0" 57600 3
    ((okDevice.getattrResult.toOption).getD
      { iflag := 0, oflag := 0, cflag := 0, lflag := 0
      , ispeed := 0, ospeed := 0, cc := [] })
    4098 (by decide) (by decide) (by decide) (by decide) (by decide)
    (by decide) (by decide)

/-- C5: every run that does not exit 0 exits 1 with a single stderr line
`Error: <description>`; when the open itself failed (e.g. nonexistent
device path), the message is that fault and no stdout line is printed. -/
theorem c5_fault_error_line (h : TermiosHost) (dev : Device) (p : String)
    (b : Int) (e : String)
    (hne : (configure_serial_raw h dev p b).exitCode ≠ 0) :
    ∃ m, (configure_serial_raw h dev p b).exitCode = 1 ∧
      (configure_serial_raw h dev p b).stderr = ["Error: " ++ m] ∧
      (dev.openResult = Except.error e →
        m = e ∧ (configure_serial_raw h dev p b).stdout = []) := by
  unfold configure_serial_raw at hne ⊢
  rcases ho : dev.openResult with e2 | fd <;> simp only [ho] at hne ⊢
  · exact ⟨e2, rfl, rfl, fun heq => ⟨Except.error.inj heq, rfl⟩⟩
  rcases ha : dev.getattrResult with e2 | a <;> simp only [ha] at hne ⊢
  · exact ⟨e2, rfl, rfl, fun heq => absurd heq (by simp)⟩
  rcases hb : resolve_baud h (effective_baud h b) with e2 | baud <;>
    simp only [hb] at hne ⊢
  · exact ⟨e2, rfl, rfl, fun heq => absurd heq (by simp)⟩
  rcases hA : apply_raw_profile h baud a with e2 | A <;> simp only [hA] at hne ⊢
  · exact ⟨e2, rfl, rfl, fun heq => absurd heq (by simp)⟩
  rcases hst : dev.setattrResult with e2 | u <;> simp only [hst] at hne ⊢
  · exact ⟨e2, rfl, rfl, fun heq => absurd heq (by simp)⟩
  exact absurd rfl hne

/-- Witness for C5: invoking on a nonexistent device path exits 1 with the
open fault as single `Error:` line and empty stdout. -/
theorem c5_fault_error_line_witness :
    ∃ m, (configure_serial_raw linuxHost noDevice "/dev/nonexistent" 115200).exitCode
        = 1 ∧
      (configure_serial_raw linuxHost noDevice "/dev/nonexistent" 115200).stderr
        = ["Error: " ++ m] ∧
      (noDevice.openResult =
          Except.error "[Errno 2] No such file or directory: /dev/nonexistent" →
        m = "[Errno 2] No such file or directory: /dev/nonexistent" ∧
        (configure_serial_raw linuxHost noDevice "/dev/nonexistent" 115200).stdout
          = []) :=
  c5_fault_error_line linuxHost noDevice "/dev/nonexistent" 115200
    "[Errno 2] No such file or directory: /dev/nonexistent" (by decide)

/-- Setting index `m` then `t` to 0 a second time changes nothing. -/
theorem double_set_idem (x : List Nat) (m t : Nat) :
    ((((x.set m 0).set t 0)).set m 0).set t 0 = (x.set m 0).set t 0 := by
  by_cases he : m = t
  · subst he
    simp [List.set_set]
  · have e1 : ((x.set m 0).set t 0).set m 0 = (x.set m 0).set t 0 := by
      rw [List.set_comm _ _ _ fun hh => he hh.symm, List.set_set]
    rw [e1, List.set_set]

/-- C6: the attribute-overwrite transformation is idempotent: its output is
a fixed point, so applying it to an already-configured snapshot returns the
same snapshot. -/
theorem c6_overwrite_idempotent (h : TermiosHost) (baud : Nat)
    (a A : TermAttrs) (hA : apply_raw_profile h baud a = Except.ok A) :
    apply_raw_profile h baud A = Except.ok A := by
  obtain ⟨h1, h2, hAeq⟩ := apply_raw_profile_ok h baud a A hA
  subst hAeq
  rw [apply_raw_profile_eq h baud _ (by simpa using h1) (by simpa using h2)]
  rw [double_set_idem]

/-- Witness for C6: re-applying the raw profile to the snapshot produced from
the canonical-mode snapshot at the Linux `B115200` constant is a no-op. -/
theorem c6_overwrite_idempotent_witness :
    apply_raw_profile linuxHost 4098
      { iflag := 0, oflag := 0, cflag := 2224, lflag := 0
      , ispeed := 4098, ospeed := 4098
      , cc := [3, 28, 127, 21, 4, 0, 0, 0, 17, 19, 26, 0, 18, 15, 23, 22,
               0, 0, 0, 0, 0, 0, 0, 0, 0, 0, 0, 0, 0, 0, 0, 0] } =
    Except.ok
      { iflag := 0, oflag := 0, cflag := 2224, lflag := 0
      , ispeed := 4098, ospeed := 4098
      , cc := [3, 28, 127, 21, 4, 0, 0, 0, 17, 19, 26, 0, 18, 15, 23, 22,
               0, 0, 0, 0, 0, 0, 0, 0, 0, 0, 0, 0, 0, 0, 0, 0] } :=
  c6_overwrite_idempotent linuxHost 4098 initialAttrs _ (by decide)

/-- C7 counterexample: two runs with the same requested baud rate but
different pre-existing snapshots (interrupt character 3 versus 255) both
succeed yet apply different attribute records, because the
control-character table outside `VMIN`/`VTIME` is carried over; so the
applied record is not determined by the requested rate alone. -/
theorem c7_counterexample :
    (configure_serial_raw linuxHost okDevice "/dev/ttyS0" 115200).exitCode = 0 ∧
    (configure_serial_raw linuxHost altDevice "/dev/ttyS0" 115200).exitCode = 0 ∧
    (configure_serial_raw linuxHost okDevice "/dev/ttyS0" 115200).applied ≠
      (configure_serial_raw linuxHost altDevice "/dev/ttyS0" 115200).applied := by
  decide

/-- C7 as amended: given the same requested baud rate, any two successful
runs agree on every flag group, on both speed fields, and on the
`VMIN`/`VTIME` entries (both 0); only the rest of the control-character
table may differ, as it depends on the pre-existing attributes. -/
theorem c7_amended_flags_deterministic (h : TermiosHost) (dev1 dev2 : Device)
    (p1 p2 : String) (b : Int)
    (hs1 : (configure_serial_raw h dev1 p1 b).exitCode = 0)
    (hs2 : (configure_serial_raw h dev2 p2 b).exitCode = 0) :
    ∃ A1 A2, (configure_serial_raw h dev1 p1 b).applied = some A1 ∧
      (configure_serial_raw h dev2 p2 b).applied = some A2 ∧
      A1.iflag = A2.iflag ∧ A1.oflag = A2.oflag ∧ A1.cflag = A2.cflag ∧
      A1.lflag = A2.lflag ∧ A1.ispeed = A2.ispeed ∧ A1.ospeed = A2.ospeed ∧
      A1.cc[h.VMIN]? = some 0 ∧ A2.cc[h.VMIN]? = some 0 ∧
      A1.cc[h.VTIME]? = some 0 ∧ A2.cc[h.VTIME]? = some 0 := by
  obtain ⟨fd1, a1, baud1, A1, ho1, ha1, hb1, hA1, hst1⟩ :=
    configure_success_inv h dev1 p1 b hs1
  obtain ⟨fd2, a2, baud2, A2, ho2, ha2, hb2, hA2, hst2⟩ :=
    configure_success_inv h dev2 p2 b hs2
  have hb2c := hb2
  rw [hb1] at hb2c
  have hbb : baud1 = baud2 := Except.ok.inj hb2c
  subst hbb
  have hr1 := configure_eq_ok h dev1 p1 b fd1 a1 baud1 A1 ho1 ha1 hb1 hA1 hst1
  have hr2 := configure_eq_ok h dev2 p2 b fd2 a2 baud1 A2 ho2 ha2 hb2 hA2 hst2
  obtain ⟨h11, h12, hA1eq⟩ := apply_raw_profile_ok h baud1 a1 A1 hA1
  obtain ⟨h21, h22, hA2eq⟩ := apply_raw_profile_ok h baud1 a2 A2 hA2
  subst hA1eq
  subst hA2eq
  refine ⟨{ iflag := 0, oflag := 0, cflag := h.CS8 ||| h.CREAD ||| h.CLOCAL
          , lflag := 0, ispeed := baud1, ospeed := baud1
          , cc := (a1.cc.set h.VMIN 0).set h.VTIME 0 },
          { iflag := 0, oflag := 0, cflag := h.CS8 ||| h.CREAD ||| h.CLOCAL
          , lflag := 0, ispeed := baud1, ospeed := baud1
          , cc := (a2.cc.set h.VMIN 0).set h.VTIME 0 },
          by rw [hr1], by rw [hr2], rfl, rfl, rfl, rfl, rfl, rfl,
          double_set_get_fst a1.cc h.VMIN h.VTIME h11,
          double_set_get_fst a2.cc h.VMIN h.VTIME h21,
          double_set_get_snd a1.cc h.VMIN h.VTIME h12,
          double_set_get_snd a2.cc h.VMIN h.VTIME h22⟩

/-- Witness for the amended C7 on two devices with different snapshots. -/
theorem c7_amended_flags_deterministic_witness :
    ∃ A1 A2,
      (configure_serial_raw linuxHost okDevice "/dev/ttyS1" 921600).applied
        = some A1 ∧
      (configure_serial_raw linuxHost altDevice "/dev/ttyS2" 921600).applied
        = some A2 ∧
      A1.iflag = A2.iflag ∧ A1.oflag = A2.oflag ∧ A1.cflag = A2.cflag ∧
      A1.lflag = A2.lflag ∧ A1.ispeed = A2.ispeed ∧ A1.ospeed = A2.ospeed ∧
      A1.cc[linuxHost.VMIN]? = some 0 ∧ A2.cc[linuxHost.VMIN]? = some 0 ∧
      A1.cc[linuxHost.VTIME]? = some 0 ∧ A2.cc[linuxHost.VTIME]? = some 0 :=
  c7_amended_flags_deterministic linuxHost okDevice altDevice
    "/dev/ttyS1" "/dev/ttyS2" 921600 (by decide) (by decide)

/-- C8 counterexample: a run whose open succeeds (handle 3) but whose
attribute retrieval faults exits 1 without any close event: the handle is
not released by the procedure on this fault path. -/
theorem c8_counterexample :
    getattrFailDevice.openResult = Except.ok 3 ∧
    (configure_serial_raw linuxHost getattrFailDevice "/dev/ttyS0" 115200).exitCode
      = 1 ∧
    (configure_serial_raw linuxHost getattrFailDevice "/dev/ttyS0" 115200).events
      = [Event.opened 3] ∧
    Event.closed 3 ∉
      (configure_serial_raw linuxHost getattrFailDevice "/dev/ttyS0" 115200).events := by
  decide

/-- C8 as amended: after a successful open the handle is closed exactly on
the success path; on every caught-fault path the run ends with the handle
still open (it is released only by process termination, with no explicit
close attempt in the handler). -/
theorem c8_amended_close_on_success_only (h : TermiosHost) (dev : Device)
    (p : String) (b : Int) (fd : Nat)
    (ho : dev.openResult = Except.ok fd) :
    ((configure_serial_raw h dev p b).exitCode = 0 →
      (configure_serial_raw h dev p b).events
        = [Event.opened fd, Event.closed fd]) ∧
    ((configure_serial_raw h dev p b).exitCode ≠ 0 →
      (configure_serial_raw h dev p b).events = [Event.opened fd] ∧
      noCloseEvent (configure_serial_raw h dev p b).events = true) := by
  unfold configure_serial_raw
  simp only [ho]
  rcases ha : dev.getattrResult with e | a <;> simp only [ha]
  · exact ⟨fun hc => absurd hc (by simp [mkErr]), fun _ => ⟨rfl, rfl⟩⟩
  rcases hb : resolve_baud h (effective_baud h b) with e | baud <;>
    simp only [hb]
  · exact ⟨fun hc => absurd hc (by simp [mkErr]), fun _ => ⟨rfl, rfl⟩⟩
  rcases hA : apply_raw_profile h baud a with e | A <;> simp only [hA]
  · exact ⟨fun hc => absurd hc (by simp [mkErr]), fun _ => ⟨rfl, rfl⟩⟩
  rcases hst : dev.setattrResult with e | u <;> simp only [hst]
  · exact ⟨fun hc => absurd hc (by simp [mkErr]), fun _ => ⟨rfl, rfl⟩⟩
  simp

/-- Witness for the amended C8 on an all-successful device. -/
theorem c8_amended_close_on_success_only_witness :
    ((configure_serial_raw linuxHost okDevice "/dev/ttyAMA0" 115200).exitCode = 0 →
      (configure_serial_raw linuxHost okDevice "/dev/ttyAMA0" 115200).events
        = [Event.opened 3, Event.closed 3]) ∧
    ((configure_serial_raw linuxHost okDevice "/dev/ttyAMA0" 115200).exitCode ≠ 0 →
      (configure_serial_raw linuxHost okDevice "/dev/ttyAMA0" 115200).events
        = [Event.opened 3] ∧
      noCloseEvent
        (configure_serial_raw linuxHost okDevice "/dev/ttyAMA0" 115200).events
        = true) :=
  c8_amended_close_on_success_only linuxHost okDevice "/dev/ttyAMA0" 115200 3
    (by decide)

/-- C9: in every successful run, each control-character entry other than the
`VMIN` and `VTIME` entries is carried over unchanged from the pre-existing
snapshot into the applied record. -/
theorem c9_cc_frame (h : TermiosHost) (dev : Device) (p : String) (b : Int)
    (a : TermAttrs) (i : Nat)
    (ha : dev.getattrResult = Except.ok a)
    (hs : (configure_serial_raw h dev p b).exitCode = 0)
    (him : i ≠ h.VMIN) (hit : i ≠ h.VTIME) :
    ∃ A, (configure_serial_raw h dev p b).applied = some A ∧
      A.cc[i]? = a.cc[i]? := by
  obtain ⟨fd, a2, baud, A, ho, ha2, hb, hA, hst⟩ :=
    configure_success_inv h dev p b hs
  rw [ha] at ha2
  have haa : a = a2 := Except.ok.inj ha2
  subst haa
  obtain ⟨h1, h2, hAeq⟩ := apply_raw_profile_ok h baud a A hA
  have hrun := configure_eq_ok h dev p b fd a baud A ho ha hb hA hst
  subst hAeq
  refine ⟨_, by rw [hrun], ?_⟩
  rw [List.getElem?_set_ne (Ne.symm hit), List.getElem?_set_ne (Ne.symm him)]

/-- Witness for C9: the interrupt character (index 0) survives unchanged. -/
theorem c9_cc_frame_witness :
    ∃ A, (configure_serial_raw linuxHost okDevice "/dev/ttyS0" 115200).applied
        = some A ∧ A.cc[0]? = initialAttrs.cc[0]? :=
  c9_cc_frame linuxHost okDevice "/dev/ttyS0" 115200 initialAttrs 0
    (by decide) (by decide) (by decide) (by decide)

/-- C10: when the third argv entry is present but is not a decimal integer
string, the `__main__` block ends in the uncaught `ValueError` from `int()`
(raised before and outside the fault handler), so the procedure never runs
and the single-line `Error:` diagnostic of the fault path is never emitted. -/
theorem c10_argv_conversion_uncaught (h : TermiosHost) (dev : Device)
    (argv : List String) (s : String)
    (h2 : argv.get? 2 = some s) (hp : pyInt s = none) :
    main_entry h dev argv =
      MainResult.uncaught ("invalid literal for int() with base 10: " ++ s) ∧
    isRan (main_entry h dev argv) = false := by
  unfold main_entry
  simp only [h2, hp]
  exact ⟨trivial, rfl⟩

/-- Witness for C10 on the argument string `fast`. -/
theorem c10_argv_conversion_uncaught_witness :
    main_entry linuxHost okDevice ["configure-serial.py", "/dev/ttyUSB0", "fast"]
      = MainResult.uncaught ("invalid literal for int() with base 10: " ++ "fast") ∧
    isRan (main_entry linuxHost okDevice
      ["configure-serial.py", "/dev/ttyUSB0", "fast"]) = false :=
  c10_argv_conversion_uncaught linuxHost okDevice
    ["configure-serial.py", "/dev/ttyUSB0", "fast"] "fast" (by decide) (by decide)
